import Mathlib

/-!
Shallow embedding of `src/message_sender.py` (class `WhatsAppSender`).

Cells of the tabular input are Python values: a string, an integer, or the
missing marker NaN (`PyVal.na`).  `PyVal.str` is Python's `str()` coercion
on those values and `PyVal.notna` is `pd.notna`.

The HTTP transport is an external collaborator: each call of
`send_template_message` is given an `HttpOutcome` describing what the
provider did (2xx with a JSON body, non-2xx with a JSON error body, or a
network error with no response object).  The batch runner receives one
outcome per row index.

`send_template_message` and `process_excel` are instrumented with the
observable traces the spec talks about: the list of HTTP POST payloads
issued, and the list of row indices after which `time.sleep(1)` ran.
-/

namespace MultiWaChat

/-- A Python value as it appears in a pandas cell: NaN (missing), a string,
or an integer. -/
inductive PyVal where
  | na : PyVal
  | s : String → PyVal
  | i : Int → PyVal
  deriving DecidableEq, Repr

/-- Python's `str()` on a cell value (`str(float("nan")) = "nan"`). -/
def PyVal.str : PyVal → String
  | .na => "nan"
  | .s v => v
  | .i n => toString n

/-- `pd.notna`: true for every value except the missing marker. -/
def PyVal.notna : PyVal → Bool
  | .na => false
  | _ => true

/-- `''.join(filter(str.isdigit, s))` — keep only the digit characters of a
string, in order. -/
def clean_string (s : String) : String :=
  ⟨s.data.filter Char.isDigit⟩

/-- `WhatsAppSender.clean_phone_number`:
`''.join(filter(str.isdigit, str(phone)))`. -/
def clean_phone_number (phone : PyVal) : String :=
  clean_string phone.str

/-- One `{"type": "text", "text": ...}` entry of a body component. -/
structure TextParam where
  type : String
  text : String
  deriving DecidableEq, Repr

/-- One entry of the payload's `components` array. -/
structure Component where
  type : String
  parameters : List TextParam
  deriving DecidableEq, Repr

/-- The `template` object of the outbound payload.  `components = none`
means the key is absent from the JSON object. -/
structure TemplateData where
  name : PyVal
  language_code : String
  components : Option (List Component)
  deriving DecidableEq, Repr

/-- The JSON body of one `POST {base}/messages` request. -/
structure MessageData where
  messaging_product : String
  «to» : String
  msg_type : String
  template : TemplateData
  deriving DecidableEq, Repr

/-- Construction of `message_data` in `send_template_message`: the base
template object, then — only when `params` is truthy (non-empty) — a
`components` list holding the single body component whose parameters are
`str(value)` for the dict's values in insertion order. -/
def message_data (to_phone : String) (template_name : PyVal)
    (params : List (String × PyVal)) : MessageData :=
  let base : TemplateData :=
    { name := template_name, language_code := "en", components := none }
  let tmpl :=
    if params.isEmpty then base
    else
      { base with
        components := some
          [{ type := "body",
             parameters := params.map (fun p => { type := "text", text := p.2.str }) }] }
  { messaging_product := "whatsapp", «to» := to_phone, msg_type := "template",
    template := tmpl }

/-- What the provider/transport did for one HTTP POST:
* `success body` — a 2xx response, `body` its parsed JSON;
* `httpError body` — a non-2xx response whose body parses as JSON, `body`
  the textual rendering of `e.response.json()`;
* `httpErrorBadJson jsonErr` — a non-2xx response whose body does NOT
  parse as JSON: there `e.response.json()` itself raises a
  `JSONDecodeError`, and `jsonErr` is that exception's own message (it
  comes from the json library and mentions neither recipient nor body);
* `networkError` — a network failure with no response object at all
  (`e.response` is `None`, so `hasattr(e.response, "json")` is false). -/
inductive HttpOutcome where
  | success : String → HttpOutcome
  | httpError : String → HttpOutcome
  | httpErrorBadJson : String → HttpOutcome
  | networkError : HttpOutcome
  deriving DecidableEq, Repr

/-- `WhatsAppSender.send_template_message`, given the transport outcome of
its single POST.  Returns the Python-level result — `.ok` with the parsed
response on 2xx, `.error msg` for the exception propagating out of the
`except` block — paired with the list of HTTP POST payloads the call
issued (always exactly the one `message_data`; there is no retry).
On `httpError` the raised exception is `Exception(error_msg)` with the
cleaned recipient and the rendered error body; on `networkError` the
`hasattr` guard fails and `Exception(error_msg)` carries the recipient
alone; on `httpErrorBadJson` the `e.response.json()` call inside the
handler raises first, so the `JSONDecodeError` escapes verbatim in place
of `Exception(error_msg)`. -/
def send_template_message (outcome : HttpOutcome) (to_phone : PyVal)
    (template_name : PyVal) (params : List (String × PyVal)) :
    Except String String × List MessageData :=
  let phone := clean_phone_number to_phone
  let md := message_data phone template_name params
  match outcome with
  | .success body => (.ok body, [md])
  | .httpError body =>
      (.error ("Failed to send message to " ++ phone ++ ": " ++ body), [md])
  | .httpErrorBadJson jsonErr => (.error jsonErr, [md])
  | .networkError =>
      (.error ("Failed to send message to " ++ phone), [md])

/-- The `results` dict accumulated by `process_excel`. -/
structure BatchResults where
  successful : Nat
  failed : Nat
  failures : List (PyVal × String)
  deriving DecidableEq, Repr

/-- The tabular input: a header row of column names and the data rows,
each a list of cells parallel to the header. -/
structure Table where
  columns : List String
  rows : List (List PyVal)
  deriving DecidableEq, Repr

/-- `required_columns = ['phone_number', 'template_name']`. -/
def required_columns : List String := ["phone_number", "template_name"]

/-- `row[col]`: the cell of the row at the named column (first matching
column of the header). -/
def rowGet (cols : List String) (cells : List PyVal) (c : String) : PyVal :=
  (((cols.zip cells).find? (fun p => p.1 == c)).map (fun p => p.2)).getD .na

/-- The per-row dict comprehension: every column not among the required
two whose cell is `pd.notna`, with its cell value, in column order. -/
def row_params (cols : List String) (cells : List PyVal) :
    List (String × PyVal) :=
  (cols.zip cells).filter
    (fun p => !(required_columns.contains p.1) && p.2.notna)

/-- The send performed for one row of `process_excel`: phone and template
name are the row's raw cells, parameters the filtered dict. -/
def rowSend (outcome : HttpOutcome) (cols : List String)
    (cells : List PyVal) : Except String String × List MessageData :=
  send_template_message outcome (rowGet cols cells "phone_number")
    (rowGet cols cells "template_name") (row_params cols cells)

/-- The row loop of `process_excel`.  `outcomes` gives the transport
outcome for the row at each index, `total_rows = len(df)` and `idx` is the
current row index.  Returns the accumulated `results` dict, the list of
HTTP POST payloads issued, and the list of row indices after which
`time.sleep(1)` ran (the sleep sits inside the `try`, after the success
bookkeeping, guarded by `index < total_rows - 1`). -/
def process_rows (outcomes : Nat → HttpOutcome) (cols : List String)
    (total_rows : Nat) (idx : Nat) :
    List (List PyVal) → BatchResults × List MessageData × List Nat
  | [] => ({ successful := 0, failed := 0, failures := [] }, [], [])
  | cells :: rest =>
      let sent := rowSend (outcomes idx) cols cells
      let tail := process_rows outcomes cols total_rows (idx + 1) rest
      match sent.1 with
      | .ok _ =>
          ({ successful := tail.1.successful + 1, failed := tail.1.failed,
             failures := tail.1.failures },
           sent.2 ++ tail.2.1,
           if idx < total_rows - 1 then idx :: tail.2.2 else tail.2.2)
      | .error e =>
          ({ successful := tail.1.successful, failed := tail.1.failed + 1,
             failures := (rowGet cols cells "phone_number", e) :: tail.1.failures },
           sent.2 ++ tail.2.1,
           tail.2.2)

/-- Column validation of `process_excel`:
`all(col in df.columns for col in required_columns)`. -/
def has_required_columns (t : Table) : Bool :=
  required_columns.all (fun c => t.columns.contains c)

/-- `WhatsAppSender.process_excel` on an already-loaded table: validate the
required columns (raising `ValueError` — modelled as `.error` — before any
send when they are missing), then run the row loop.  The second and third
components are the trace of HTTP POST payloads and of sleeps. -/
def process_excel (outcomes : Nat → HttpOutcome) (t : Table) :
    Except String BatchResults × List MessageData × List Nat :=
  if has_required_columns t then
    let r := process_rows outcomes t.columns t.rows.length 0 t.rows
    (.ok r.1, r.2.1, r.2.2)
  else
    (.error "Excel must contain columns: ['phone_number', 'template_name']", [], [])

/-! ### Helper lemmas -/

theorem send_emits_one_post (o : HttpOutcome) (to_phone template_name : PyVal)
    (params : List (String × PyVal)) :
    (send_template_message o to_phone template_name params).2
      = [message_data (clean_phone_number to_phone) template_name params] := by
  cases o <;> rfl

theorem process_rows_nil (outcomes : Nat → HttpOutcome) (cols : List String)
    (total idx : Nat) :
    process_rows outcomes cols total idx []
      = ({ successful := 0, failed := 0, failures := [] }, [], []) := rfl

theorem process_rows_cons_ok (outcomes : Nat → HttpOutcome) (cols : List String)
    (total idx : Nat) (cells : List PyVal) (rest : List (List PyVal)) (b : String)
    (hs : (rowSend (outcomes idx) cols cells).1 = .ok b) :
    process_rows outcomes cols total idx (cells :: rest)
      = ({ successful := (process_rows outcomes cols total (idx + 1) rest).1.successful + 1,
           failed := (process_rows outcomes cols total (idx + 1) rest).1.failed,
           failures := (process_rows outcomes cols total (idx + 1) rest).1.failures },
         (rowSend (outcomes idx) cols cells).2
           ++ (process_rows outcomes cols total (idx + 1) rest).2.1,
         if idx < total - 1 then
           idx :: (process_rows outcomes cols total (idx + 1) rest).2.2
         else (process_rows outcomes cols total (idx + 1) rest).2.2) := by
  simp only [process_rows]
  rw [hs]

theorem process_rows_cons_error (outcomes : Nat → HttpOutcome) (cols : List String)
    (total idx : Nat) (cells : List PyVal) (rest : List (List PyVal)) (e : String)
    (hs : (rowSend (outcomes idx) cols cells).1 = .error e) :
    process_rows outcomes cols total idx (cells :: rest)
      = ({ successful := (process_rows outcomes cols total (idx + 1) rest).1.successful,
           failed := (process_rows outcomes cols total (idx + 1) rest).1.failed + 1,
           failures := (rowGet cols cells "phone_number", e)
             :: (process_rows outcomes cols total (idx + 1) rest).1.failures },
         (rowSend (outcomes idx) cols cells).2
           ++ (process_rows outcomes cols total (idx + 1) rest).2.1,
         (process_rows outcomes cols total (idx + 1) rest).2.2) := by
  simp only [process_rows]
  rw [hs]

theorem process_rows_counts (outcomes : Nat → HttpOutcome) (cols : List String)
    (total : Nat) (rows : List (List PyVal)) : ∀ idx : Nat,
    (process_rows outcomes cols total idx rows).1.successful
        + (process_rows outcomes cols total idx rows).1.failed = rows.length
    ∧ (process_rows outcomes cols total idx rows).1.failures.length
        = (process_rows outcomes cols total idx rows).1.failed := by
  induction rows with
  | nil => intro idx; simp [process_rows_nil]
  | cons cells rest ih =>
    intro idx
    cases hs : (rowSend (outcomes idx) cols cells).1 with
    | ok b =>
      rw [process_rows_cons_ok outcomes cols total idx cells rest b hs]
      have h := ih (idx + 1)
      constructor
      · simp only [List.length_cons]; omega
      · exact h.2
    | error e =>
      rw [process_rows_cons_error outcomes cols total idx cells rest e hs]
      have h := ih (idx + 1)
      constructor
      · simp only [List.length_cons]; omega
      · simp only [List.length_cons]; omega

theorem process_rows_posts_length (outcomes : Nat → HttpOutcome) (cols : List String)
    (total : Nat) (rows : List (List PyVal)) : ∀ idx : Nat,
    (process_rows outcomes cols total idx rows).2.1.length = rows.length := by
  induction rows with
  | nil => intro idx; simp [process_rows_nil]
  | cons cells rest ih =>
    intro idx
    cases hs : (rowSend (outcomes idx) cols cells).1 with
    | ok b =>
      rw [process_rows_cons_ok outcomes cols total idx cells rest b hs]
      simp [rowSend, send_emits_one_post, ih (idx + 1)]
    | error e =>
      rw [process_rows_cons_error outcomes cols total idx cells rest e hs]
      simp [rowSend, send_emits_one_post, ih (idx + 1)]

/-! ### Claims -/

/-- C5: clean_phone_number keeps exactly the decimal digit characters of the
raw string, in their original relative order, dropping everything else; it is
total and sends the empty string to the empty string. -/
theorem clean_phone_digits_only (s : String) :
    ((clean_phone_number (PyVal.s s)).data.all Char.isDigit = true)
    ∧ List.Sublist (clean_phone_number (PyVal.s s)).data s.data
    ∧ (∀ c : Char, c.isDigit →
        (clean_phone_number (PyVal.s s)).data.count c = s.data.count c)
    ∧ (∀ c : Char, ¬c.isDigit → c ∉ (clean_phone_number (PyVal.s s)).data)
    ∧ clean_phone_number (PyVal.s "") = "" := by
  refine ⟨?_, List.filter_sublist s.data, ?_, ?_, rfl⟩
  · simp [clean_phone_number, clean_string, PyVal.str, List.all_eq_true]
  · intro c hc
    exact List.count_filter hc
  · intro c hc hmem
    exact hc (List.of_mem_filter hmem)

/-- Witness for C5 at the concrete raw string "+1 (555) 123-4567". -/
theorem clean_phone_digits_only_witness :
    ((clean_phone_number (PyVal.s "+1 (555) 123-4567")).data.all Char.isDigit = true)
    ∧ List.Sublist (clean_phone_number (PyVal.s "+1 (555) 123-4567")).data
        "+1 (555) 123-4567".data
    ∧ (clean_phone_number (PyVal.s "+1 (555) 123-4567")).data.count '5'
        = "+1 (555) 123-4567".data.count '5'
    ∧ '-' ∉ (clean_phone_number (PyVal.s "+1 (555) 123-4567")).data
    ∧ clean_phone_number (PyVal.s "") = "" :=
  ⟨(clean_phone_digits_only "+1 (555) 123-4567").1,
   (clean_phone_digits_only "+1 (555) 123-4567").2.1,
   (clean_phone_digits_only "+1 (555) 123-4567").2.2.1 '5' (by decide),
   (clean_phone_digits_only "+1 (555) 123-4567").2.2.2.1 '-' (by decide),
   (clean_phone_digits_only "+1 (555) 123-4567").2.2.2.2⟩

/-- C6: the phone-number normalizer is idempotent — re-normalizing the
normalized digits-only string changes nothing. -/
theorem clean_phone_idempotent (x : String) :
    clean_phone_number (PyVal.s (clean_phone_number (PyVal.s x)))
      = clean_phone_number (PyVal.s x) := by
  simp [clean_phone_number, clean_string, PyVal.str, List.filter_filter]

/-- C8 counterexample: a non-2xx response whose body is not JSON — there
`e.response.json()` raises inside the `except` handler, and the error that
escapes `send_template_message` is the bare decode message: the cleaned
recipient "555" appears nowhere in it. -/
theorem send_error_no_recipient_counterexample :
    (send_template_message
        (.httpErrorBadJson "Expecting value: line 1 column 1 (char 0)")
        (PyVal.s "555") (PyVal.s "welcome") []).1
      = .error "Expecting value: line 1 column 1 (char 0)"
    ∧ ¬ List.IsInfix (clean_phone_number (PyVal.s "555")).data
        "Expecting value: line 1 column 1 (char 0)".data :=
  ⟨rfl, by decide⟩

/-- C8 amended: on a non-2xx response whose body parses as JSON the send
result is an error carrying the recipient (the cleaned phone) and the
provider's structured error body; on a network error (no response object)
it carries the recipient alone; on a non-2xx response whose body does not
parse as JSON the escaping error is the JSON decode message verbatim,
with neither recipient nor provider body; in every case the call issues
exactly one HTTP POST (no retry). -/
theorem send_error_carries_recipient_and_body (to_phone template_name : PyVal)
    (params : List (String × PyVal)) (body jsonErr : String) :
    ((send_template_message (.httpError body) to_phone template_name params).1
        = .error ("Failed to send message to "
            ++ clean_phone_number to_phone ++ ": " ++ body))
    ∧ ((send_template_message .networkError to_phone template_name params).1
        = .error ("Failed to send message to " ++ clean_phone_number to_phone))
    ∧ ((send_template_message (.httpErrorBadJson jsonErr) to_phone
          template_name params).1 = .error jsonErr)
    ∧ (∀ o : HttpOutcome,
        (send_template_message o to_phone template_name params).2.length = 1) :=
  ⟨rfl, rfl, rfl, fun o => by rw [send_emits_one_post]; rfl⟩

/-- C3: when phone_number or template_name is missing from the header, the
batch run fails with the ValueError message before any send: the result is
the data-format error, the trace of HTTP POSTs is empty and so is the sleep
trace — no summary is produced. -/
theorem missing_columns_fail_fast (outcomes : Nat → HttpOutcome) (t : Table)
    (h : "phone_number" ∉ t.columns ∨ "template_name" ∉ t.columns) :
    process_excel outcomes t
      = (.error "Excel must contain columns: ['phone_number', 'template_name']",
         [], []) := by
  have hb : has_required_columns t = false := by
    unfold has_required_columns required_columns
    rcases h with h | h <;> simp [h]
  simp [process_excel, hb]

/-- Witness for C3: a table whose header lacks template_name. -/
theorem missing_columns_fail_fast_witness :
    process_excel (fun _ => HttpOutcome.networkError)
        { columns := ["phone_number", "name"],
          rows := [[PyVal.s "15551234567", PyVal.s "Ann"]] }
      = (.error "Excel must contain columns: ['phone_number', 'template_name']",
         [], []) :=
  missing_columns_fail_fast (fun _ => HttpOutcome.networkError)
    { columns := ["phone_number", "name"],
      rows := [[PyVal.s "15551234567", PyVal.s "Ann"]] }
    (Or.inr (by decide))

/-- C4: every HTTP POST issued by send_template_message is a whatsapp
template message with language code "en" and the given template name,
addressed to the cleaned phone; with a non-empty parameter mapping its
template carries exactly one component, of type "body", whose parameters
are the mapping's values in insertion order, each str()-coerced and tagged
as a "text" parameter; with an empty mapping no components field is
attached; and exactly one payload is issued per call. -/
theorem send_payload_shape (o : HttpOutcome) (to_phone template_name : PyVal)
    (params : List (String × PyVal)) :
    (send_template_message o to_phone template_name params).2.length = 1
    ∧ ∀ md ∈ (send_template_message o to_phone template_name params).2,
        md.messaging_product = "whatsapp"
        ∧ md.msg_type = "template"
        ∧ md.template.language_code = "en"
        ∧ md.template.name = template_name
        ∧ md.«to» = clean_phone_number to_phone
        ∧ (params ≠ [] →
            md.template.components
              = some [{ type := "body",
                        parameters := params.map
                          (fun p => { type := "text", text := p.2.str }) }])
        ∧ (params = [] → md.template.components = none) := by
  rw [send_emits_one_post]
  refine ⟨rfl, ?_⟩
  intro md hmd
  rw [List.mem_singleton] at hmd
  subst hmd
  cases params with
  | nil => simp [message_data]
  | cons p ps => simp [message_data]

/-- Witness for C4: one parameter ("name" ↦ "Ann") yields the single body
component with the single text parameter "Ann". -/
theorem send_payload_shape_witness :
    (send_template_message (.success "ok") (PyVal.s "+1 555-123")
        (PyVal.s "welcome") [("name", PyVal.s "Ann")]).2.length = 1
    ∧ (message_data "1555123" (PyVal.s "welcome")
        [("name", PyVal.s "Ann")]).template.components
      = some [{ type := "body",
                parameters := [{ type := "text", text := "Ann" }] }] :=
  ⟨(send_payload_shape (.success "ok") (PyVal.s "+1 555-123")
      (PyVal.s "welcome") [("name", PyVal.s "Ann")]).1,
   ((send_payload_shape (.success "ok") (PyVal.s "+1 555-123")
      (PyVal.s "welcome") [("name", PyVal.s "Ann")]).2
      (message_data "1555123" (PyVal.s "welcome") [("name", PyVal.s "Ann")])
      (by decide)).2.2.2.2.2.1 (by decide)⟩

/-- C1: on a table with the required columns the run returns a summary in
which successful + failed equals the number of rows and the failures list
has exactly failed entries; the empty table yields {0, 0, []}. -/
theorem batch_summary_partitions_rows (outcomes : Nat → HttpOutcome) (t : Table)
    (h : has_required_columns t = true) :
    ∃ r : BatchResults, (process_excel outcomes t).1 = .ok r
      ∧ r.successful + r.failed = t.rows.length
      ∧ r.failures.length = r.failed
      ∧ (t.rows = [] → r = { successful := 0, failed := 0, failures := [] }) := by
  refine ⟨(process_rows outcomes t.columns t.rows.length 0 t.rows).1, ?_, ?_, ?_, ?_⟩
  · simp [process_excel, h]
  · exact (process_rows_counts outcomes t.columns t.rows.length t.rows 0).1
  · exact (process_rows_counts outcomes t.columns t.rows.length t.rows 0).2
  · intro hrows; rw [hrows]; rfl

/-- Witness for C1: a two-row table, one send succeeding and one failing. -/
theorem batch_summary_partitions_rows_witness :
    ∃ r : BatchResults,
      (process_excel
          (fun n => if n = 0 then HttpOutcome.success "ok"
                    else HttpOutcome.networkError)
          { columns := ["phone_number", "template_name"],
            rows := [[PyVal.s "111", PyVal.s "welcome"],
                     [PyVal.s "222", PyVal.s "welcome"]] }).1 = .ok r
      ∧ r.successful + r.failed
          = ({ columns := ["phone_number", "template_name"],
               rows := [[PyVal.s "111", PyVal.s "welcome"],
                        [PyVal.s "222", PyVal.s "welcome"]] } : Table).rows.length
      ∧ r.failures.length = r.failed
      ∧ (({ columns := ["phone_number", "template_name"],
            rows := [[PyVal.s "111", PyVal.s "welcome"],
                     [PyVal.s "222", PyVal.s "welcome"]] } : Table).rows = []
          → r = { successful := 0, failed := 0, failures := [] }) :=
  batch_summary_partitions_rows
    (fun n => if n = 0 then HttpOutcome.success "ok" else HttpOutcome.networkError)
    { columns := ["phone_number", "template_name"],
      rows := [[PyVal.s "111", PyVal.s "welcome"],
               [PyVal.s "222", PyVal.s "welcome"]] }
    (by decide)

/-- C2: a send failure on a row is caught at the row boundary — the failed
counter of the summary is one more than that of the remaining rows, the
{phone, error} entry is prepended to their failures, the successes are
untouched, the batch goes on to the remaining rows (their POSTs follow the
failing row's POST in the trace), and a full run always attempts exactly
one POST per row, whatever the outcomes. -/
theorem row_failure_isolated (outcomes : Nat → HttpOutcome) (cols : List String)
    (total idx : Nat) (cells : List PyVal) (rest : List (List PyVal)) (e : String)
    (h : (rowSend (outcomes idx) cols cells).1 = .error e) :
    (process_rows outcomes cols total idx (cells :: rest)).1.failed
        = (process_rows outcomes cols total (idx + 1) rest).1.failed + 1
    ∧ (process_rows outcomes cols total idx (cells :: rest)).1.failures
        = (rowGet cols cells "phone_number", e)
          :: (process_rows outcomes cols total (idx + 1) rest).1.failures
    ∧ (process_rows outcomes cols total idx (cells :: rest)).1.successful
        = (process_rows outcomes cols total (idx + 1) rest).1.successful
    ∧ (process_rows outcomes cols total idx (cells :: rest)).2.1
        = (rowSend (outcomes idx) cols cells).2
          ++ (process_rows outcomes cols total (idx + 1) rest).2.1
    ∧ (∀ rows : List (List PyVal), ∀ j : Nat,
        (process_rows outcomes cols total j rows).2.1.length = rows.length) := by
  rw [process_rows_cons_error outcomes cols total idx cells rest e h]
  exact ⟨rfl, rfl, rfl, rfl,
    fun rows j => process_rows_posts_length outcomes cols total rows j⟩

/-- Witness for C2: first of two rows fails with a network error. -/
theorem row_failure_isolated_witness :
    (process_rows (fun _ => HttpOutcome.networkError)
        ["phone_number", "template_name"] 2 0
        [[PyVal.s "+1 555", PyVal.s "welcome"], [PyVal.s "222", PyVal.s "welcome"]]).1.failed
      = (process_rows (fun _ => HttpOutcome.networkError)
          ["phone_number", "template_name"] 2 1
          [[PyVal.s "222", PyVal.s "welcome"]]).1.failed + 1
    ∧ (process_rows (fun _ => HttpOutcome.networkError)
        ["phone_number", "template_name"] 2 0
        [[PyVal.s "+1 555", PyVal.s "welcome"], [PyVal.s "222", PyVal.s "welcome"]]).2.1.length
      = 2 :=
  ⟨(row_failure_isolated (fun _ => HttpOutcome.networkError)
      ["phone_number", "template_name"] 2 0 [PyVal.s "+1 555", PyVal.s "welcome"]
      [[PyVal.s "222", PyVal.s "welcome"]]
      "Failed to send message to 1555" rfl).1,
   (row_failure_isolated (fun _ => HttpOutcome.networkError)
      ["phone_number", "template_name"] 2 0 [PyVal.s "+1 555", PyVal.s "welcome"]
      [[PyVal.s "222", PyVal.s "welcome"]]
      "Failed to send message to 1555" rfl).2.2.2.2
     [[PyVal.s "+1 555", PyVal.s "welcome"], [PyVal.s "222", PyVal.s "welcome"]] 0⟩

/-- C7: the per-row parameters mapping contains exactly the (column, cell)
pairs of the row whose column is not one of the two required ones and whose
cell is present (pd.notna), and it preserves the table's column order. -/
theorem row_params_exact (cols : List String) (cells : List PyVal) :
    (∀ c v, (c, v) ∈ row_params cols cells ↔
        ((c, v) ∈ cols.zip cells ∧ c ∉ required_columns ∧ v.notna = true))
    ∧ List.Sublist (row_params cols cells) (cols.zip cells) := by
  constructor
  · intro c v
    simp [row_params, List.mem_filter, and_assoc]
  · exact List.filter_sublist _

/-- Witness for C7: a row with one extra present cell and one missing cell;
the parameters hold exactly the present extra cell. -/
theorem row_params_exact_witness :
    ("name", PyVal.s "Ann") ∈ row_params ["phone_number", "template_name", "name", "age"]
        [PyVal.s "15551234567", PyVal.s "welcome", PyVal.s "Ann", PyVal.na]
    ∧ ¬ ("age", PyVal.na) ∈ row_params ["phone_number", "template_name", "name", "age"]
        [PyVal.s "15551234567", PyVal.s "welcome", PyVal.s "Ann", PyVal.na]
    ∧ List.Sublist
        (row_params ["phone_number", "template_name", "name", "age"]
          [PyVal.s "15551234567", PyVal.s "welcome", PyVal.s "Ann", PyVal.na])
        (["phone_number", "template_name", "name", "age"].zip
          [PyVal.s "15551234567", PyVal.s "welcome", PyVal.s "Ann", PyVal.na]) :=
  ⟨((row_params_exact ["phone_number", "template_name", "name", "age"]
      [PyVal.s "15551234567", PyVal.s "welcome", PyVal.s "Ann", PyVal.na]).1
      "name" (PyVal.s "Ann")).mpr (by decide),
   fun hmem => by
     have h := ((row_params_exact ["phone_number", "template_name", "name", "age"]
        [PyVal.s "15551234567", PyVal.s "welcome", PyVal.s "Ann", PyVal.na]).1
        "age" PyVal.na).mp hmem
     exact absurd h.2.2 (by decide),
   (row_params_exact ["phone_number", "template_name", "name", "age"]
      [PyVal.s "15551234567", PyVal.s "welcome", PyVal.s "Ann", PyVal.na]).2⟩

/-- C10 counterexample: a row failing on a non-2xx response with an
unparseable body is recorded with the raw cell "+1 555" as its phone, but
the entry's error string is the bare JSON decode message, which does not
embed the normalized phone "1555" at all. -/
theorem failure_entry_no_phone_counterexample :
    (process_rows
        (fun _ => HttpOutcome.httpErrorBadJson "Expecting value: line 1 column 1 (char 0)")
        ["phone_number", "template_name"] 1 0
        [[PyVal.s "+1 555", PyVal.s "welcome"]]).1.failures
      = [(PyVal.s "+1 555", "Expecting value: line 1 column 1 (char 0)")]
    ∧ ¬ List.IsInfix (clean_phone_number (PyVal.s "+1 555")).data
        "Expecting value: line 1 column 1 (char 0)".data :=
  ⟨rfl, by decide⟩

/-- C10 amended: every failing row's entry records the row's raw,
un-normalized phone_number cell as its phone; when the failure is a non-2xx
response with a JSON body, the entry's error string embeds the cleaned,
digits-only phone together with the provider's error body, and on a network
error it embeds the cleaned phone alone; when the failure is a non-2xx
response whose body is not JSON, the entry's error is the decode message
verbatim, embedding no phone. -/
theorem failure_entry_raw_phone_clean_error (outcomes : Nat → HttpOutcome)
    (cols : List String) (total idx : Nat) (cells : List PyVal)
    (rest : List (List PyVal)) (body jsonErr : String) :
    (outcomes idx = .httpError body →
      (process_rows outcomes cols total idx (cells :: rest)).1.failures.head?
        = some (rowGet cols cells "phone_number",
            "Failed to send message to "
              ++ clean_phone_number (rowGet cols cells "phone_number")
              ++ ": " ++ body))
    ∧ (outcomes idx = .networkError →
      (process_rows outcomes cols total idx (cells :: rest)).1.failures.head?
        = some (rowGet cols cells "phone_number",
            "Failed to send message to "
              ++ clean_phone_number (rowGet cols cells "phone_number")))
    ∧ (outcomes idx = .httpErrorBadJson jsonErr →
      (process_rows outcomes cols total idx (cells :: rest)).1.failures.head?
        = some (rowGet cols cells "phone_number", jsonErr)) := by
  refine ⟨?_, ?_, ?_⟩ <;> intro h
  · have hs : (rowSend (outcomes idx) cols cells).1
        = .error ("Failed to send message to "
            ++ clean_phone_number (rowGet cols cells "phone_number")
            ++ ": " ++ body) := by
      rw [h]; rfl
    rw [process_rows_cons_error outcomes cols total idx cells rest _ hs]
    rfl
  · have hs : (rowSend (outcomes idx) cols cells).1
        = .error ("Failed to send message to "
            ++ clean_phone_number (rowGet cols cells "phone_number")) := by
      rw [h]; rfl
    rw [process_rows_cons_error outcomes cols total idx cells rest _ hs]
    rfl
  · have hs : (rowSend (outcomes idx) cols cells).1 = .error jsonErr := by
      rw [h]; rfl
    rw [process_rows_cons_error outcomes cols total idx cells rest _ hs]
    rfl

/-- Witness for the amended C10: the raw cell "+1 555-123-4567" is recorded
verbatim as the failure's phone on each failing path, the error text
holding "15551234567" on the JSON-bodied and network paths and the bare
decode message on the unparseable-body path. -/
theorem failure_entry_raw_phone_clean_error_witness :
    ((process_rows (fun _ => HttpOutcome.httpError "invalid-parameter-body")
        ["phone_number", "template_name"] 1 0
        [[PyVal.s "+1 555-123-4567", PyVal.s "welcome"]]).1.failures.head?
      = some (rowGet ["phone_number", "template_name"]
            [PyVal.s "+1 555-123-4567", PyVal.s "welcome"] "phone_number",
          "Failed to send message to "
            ++ clean_phone_number (rowGet ["phone_number", "template_name"]
                [PyVal.s "+1 555-123-4567", PyVal.s "welcome"] "phone_number")
            ++ ": " ++ "invalid-parameter-body"))
    ∧ ((process_rows (fun _ => HttpOutcome.networkError)
        ["phone_number", "template_name"] 1 0
        [[PyVal.s "+1 555-123-4567", PyVal.s "welcome"]]).1.failures.head?
      = some (rowGet ["phone_number", "template_name"]
            [PyVal.s "+1 555-123-4567", PyVal.s "welcome"] "phone_number",
          "Failed to send message to "
            ++ clean_phone_number (rowGet ["phone_number", "template_name"]
                [PyVal.s "+1 555-123-4567", PyVal.s "welcome"] "phone_number")))
    ∧ ((process_rows (fun _ => HttpOutcome.httpErrorBadJson "bad-json-decode-message")
        ["phone_number", "template_name"] 1 0
        [[PyVal.s "+1 555-123-4567", PyVal.s "welcome"]]).1.failures.head?
      = some (rowGet ["phone_number", "template_name"]
            [PyVal.s "+1 555-123-4567", PyVal.s "welcome"] "phone_number",
          "bad-json-decode-message")) :=
  ⟨(failure_entry_raw_phone_clean_error
      (fun _ => HttpOutcome.httpError "invalid-parameter-body")
      ["phone_number", "template_name"] 1 0
      [PyVal.s "+1 555-123-4567", PyVal.s "welcome"] []
      "invalid-parameter-body" "").1 rfl,
   (failure_entry_raw_phone_clean_error (fun _ => HttpOutcome.networkError)
      ["phone_number", "template_name"] 1 0
      [PyVal.s "+1 555-123-4567", PyVal.s "welcome"] [] "" "").2.1 rfl,
   (failure_entry_raw_phone_clean_error
      (fun _ => HttpOutcome.httpErrorBadJson "bad-json-decode-message")
      ["phone_number", "template_name"] 1 0
      [PyVal.s "+1 555-123-4567", PyVal.s "welcome"] []
      "" "bad-json-decode-message").2.2 rfl⟩

theorem process_rows_sleeps_mem (outcomes : Nat → HttpOutcome) (cols : List String)
    (total : Nat) (rows : List (List PyVal)) : ∀ idx i : Nat,
    (i ∈ (process_rows outcomes cols total idx rows).2.2 ↔
      ∃ k cells, rows.get? k = some cells ∧ i = idx + k
        ∧ (∃ b, (rowSend (outcomes i) cols cells).1 = Except.ok b)
        ∧ i < total - 1) := by
  induction rows with
  | nil =>
    intro idx i
    simp [process_rows_nil]
  | cons cells rest ih =>
    intro idx i
    cases hs : (rowSend (outcomes idx) cols cells).1 with
    | ok b =>
      rw [process_rows_cons_ok outcomes cols total idx cells rest b hs]
      by_cases hlt : idx < total - 1
      · simp only [if_pos hlt, List.mem_cons]
        constructor
        · rintro (rfl | hmem)
          · exact ⟨0, cells, rfl, rfl, ⟨b, hs⟩, hlt⟩
          · obtain ⟨k, cells', hget, hi, hok, hlt'⟩ := (ih (idx + 1) i).mp hmem
            exact ⟨k + 1, cells', by simpa using hget, by omega, hok, hlt'⟩
        · rintro ⟨k, cells', hget, rfl, hok, hlt'⟩
          cases k with
          | zero => left; omega
          | succ k =>
            right
            exact (ih (idx + 1) (idx + (k + 1))).mpr
              ⟨k, cells', by simpa using hget, by omega, hok, hlt'⟩
      · simp only [if_neg hlt]
        constructor
        · intro hmem
          obtain ⟨k, cells', hget, hi, hok, hlt'⟩ := (ih (idx + 1) i).mp hmem
          exact ⟨k + 1, cells', by simpa using hget, by omega, hok, hlt'⟩
        · rintro ⟨k, cells', hget, rfl, hok, hlt'⟩
          cases k with
          | zero => omega
          | succ k =>
            exact (ih (idx + 1) (idx + (k + 1))).mpr
              ⟨k, cells', by simpa using hget, by omega, hok, hlt'⟩
    | error e =>
      rw [process_rows_cons_error outcomes cols total idx cells rest e hs]
      constructor
      · intro hmem
        obtain ⟨k, cells', hget, hi, hok, hlt'⟩ := (ih (idx + 1) i).mp hmem
        exact ⟨k + 1, cells', by simpa using hget, by omega, hok, hlt'⟩
      · rintro ⟨k, cells', hget, rfl, hok, hlt'⟩
        cases k with
        | zero =>
          obtain ⟨b, hb⟩ := hok
          rw [List.get?_cons_zero] at hget
          injection hget with hc
          subst hc
          simp only [Nat.add_zero] at hb
          rw [hs] at hb
          cases hb
        | succ k =>
          exact (ih (idx + 1) (idx + (k + 1))).mpr
            ⟨k, cells', by simpa using hget, by omega, hok, hlt'⟩

/-- C9 counterexample: a two-row table whose sends all fail at the network
level — both rows are processed (two POSTs attempted, two failures
recorded), row 0 is not the last row, yet the sleep trace is empty: no
pause happens after the failed row 0. -/
theorem sleep_after_failure_counterexample :
    ({ columns := ["phone_number", "template_name"],
       rows := [[PyVal.s "111", PyVal.s "welcome"],
                [PyVal.s "222", PyVal.s "welcome"]] } : Table).rows.length = 2
    ∧ (process_excel (fun _ => HttpOutcome.networkError)
        { columns := ["phone_number", "template_name"],
          rows := [[PyVal.s "111", PyVal.s "welcome"],
                   [PyVal.s "222", PyVal.s "welcome"]] }).2.1.length = 2
    ∧ (process_excel (fun _ => HttpOutcome.networkError)
        { columns := ["phone_number", "template_name"],
          rows := [[PyVal.s "111", PyVal.s "welcome"],
                   [PyVal.s "222", PyVal.s "welcome"]] }).1
      = .ok { successful := 0, failed := 2,
              failures := [(PyVal.s "111", "Failed to send message to 111"),
                           (PyVal.s "222", "Failed to send message to 222")] }
    ∧ (process_excel (fun _ => HttpOutcome.networkError)
        { columns := ["phone_number", "template_name"],
          rows := [[PyVal.s "111", PyVal.s "welcome"],
                   [PyVal.s "222", PyVal.s "welcome"]] }).2.2 = [] :=
  ⟨rfl, rfl, rfl, rfl⟩

/-- C9 amended: the fixed inter-message pause happens after row i exactly
when row i's send succeeded and i is not the last row of the table; after a
row whose send failed (and after the last row) no pause occurs. -/
theorem sleep_iff_send_ok_and_not_last (outcomes : Nat → HttpOutcome) (t : Table)
    (h : has_required_columns t = true) (i : Nat) :
    i ∈ (process_excel outcomes t).2.2 ↔
      (∃ cells, t.rows.get? i = some cells
        ∧ (∃ b, (rowSend (outcomes i) t.columns cells).1 = Except.ok b)
        ∧ i + 1 < t.rows.length) := by
  have hmem := process_rows_sleeps_mem outcomes t.columns t.rows.length t.rows 0 i
  simp only [process_excel, h, if_true]
  rw [hmem]
  constructor
  · rintro ⟨k, cells, hget, hi, hok, hlt⟩
    have hk : k = i := by omega
    subst hk
    exact ⟨cells, hget, hok, by omega⟩
  · rintro ⟨cells, hget, hok, hlt⟩
    exact ⟨i, cells, hget, by omega, hok, by omega⟩

/-- Witness for the amended C9: in a two-row all-success run a pause does
follow row 0. -/
theorem sleep_iff_send_ok_and_not_last_witness :
    0 ∈ (process_excel (fun _ => HttpOutcome.success "ok")
        { columns := ["phone_number", "template_name"],
          rows := [[PyVal.s "111", PyVal.s "welcome"],
                   [PyVal.s "222", PyVal.s "welcome"]] }).2.2 :=
  (sleep_iff_send_ok_and_not_last (fun _ => HttpOutcome.success "ok")
      { columns := ["phone_number", "template_name"],
        rows := [[PyVal.s "111", PyVal.s "welcome"],
                 [PyVal.s "222", PyVal.s "welcome"]] }
      (by decide) 0).mpr
    ⟨[PyVal.s "111", PyVal.s "welcome"], rfl, ⟨"ok", rfl⟩, by decide⟩

end MultiWaChat
